import Mathlib

/-!
Verification development for a Chilean RUT / contact form validator
(`contacto.js`, `app.js`).  The string-processing core is embedded over
`List Char`: each JS function is translated to a Lean definition of the
same name working on the character data of the input string, and the
claims of the specification are settled as theorems about these
definitions.
-/

/-- Characters kept by the cleaning step `rut.replace(/[^0-9kK]/g, '')`:
decimal digits and the letters k, K. -/
def isRutChar (c : Char) : Bool :=
  c.isDigit || c == 'k' || c == 'K'

/-- The `.toUpperCase()` applied after the clean: on the remaining
alphabet (digits, k, K) it only changes the lowercase k to K. -/
def upK (c : Char) : Char :=
  if c == 'k' then 'K' else c

/-- `rut.replace(/[^0-9kK]/g, '').toUpperCase()` on character lists. -/
def limpiarL (l : List Char) : List Char :=
  (l.filter isRutChar).map upK

/-- `limpiarRut` from contacto.js (lines 91-93). -/
def limpiarRut (rut : String) : String :=
  ⟨limpiarL rut.data⟩

/-- `formatearRut` body (lines 8-20) after the inline clean: if the cleaned
value has fewer than 2 characters it is returned as is, otherwise body and
check character are joined with a hyphen.  `slice(0, -1)` is
`take (length - 1)` and `slice(-1)` is `drop (length - 1)`. -/
def formatearRutL (valor : List Char) : List Char :=
  if valor.length < 2 then valor
  else valor.take (valor.length - 1) ++ '-' :: valor.drop (valor.length - 1)

/-- `formatearRut` from contacto.js (lines 8-20). -/
def formatearRut (rut : String) : String :=
  ⟨formatearRutL (limpiarL rut.data)⟩

/-- The `{ valid, error }` object returned by the three validators. -/
structure ValidationResult where
  valid : Bool
  error : Option String
  deriving DecidableEq, Repr

/-- The regex `^(\d)\1+$` of line 54: one digit followed by one or more
further copies of that same digit. -/
def repDigit : List Char → Bool
  | [] => false
  | c :: rest => c.isDigit && !rest.isEmpty && rest.all (fun b => b == c)

/-- The check-digit loop of `validarRut` (lines 59-65): walk the body from
the right, multiplier starting at 2 and cycling back to 2 after 7.  The
argument list is the reversed body; `parseInt` of a digit character is
`c.toNat - '0'.toNat`. -/
def sumaAux : List Char → Nat → Nat
  | [], _ => 0
  | c :: rest, m =>
      (c.toNat - '0'.toNat) * m + sumaAux rest (if m = 7 then 2 else m + 1)

/-- The complete weighted sum of `validarRut` over the body. -/
def sumaPonderada (cuerpo : List Char) : Nat :=
  sumaAux cuerpo.reverse 2

/-- Lines 67-77 of contacto.js: `resto = suma % 11`,
`dvCalculado = 11 - resto`, mapped to the expected check character
(11 to '0', 10 to 'K', otherwise `dvCalculado.toString()`, a single
decimal digit since `dvCalculado` is between 1 and 9 there). -/
def dvFromSum (suma : Nat) : Char :=
  let resto := suma % 11
  let dvCalculado := 11 - resto
  if dvCalculado = 11 then '0'
  else if dvCalculado = 10 then 'K'
  else Nat.digitChar dvCalculado

/-- Lines 40-83 of `validarRut`, on the already split body `cuerpo` and
check part `dvIngresado`.  The check part `slice(-1)` is kept as a
one-character list, matching the JS one-character-string comparison
`dvIngresado !== dvEsperado`.  The regex `^\d+$` on the body is
"nonempty and every character a digit". -/
def validarRutCore (cuerpo dvIngresado : List Char) : ValidationResult :=
  if cuerpo.isEmpty || !cuerpo.all Char.isDigit then
    ⟨false, some "El RUT debe contener solo números"⟩
  else if cuerpo.length < 7 then
    ⟨false, some "RUT muy corto (mínimo 7 dígitos)"⟩
  else if 8 < cuerpo.length then
    ⟨false, some "RUT muy largo (máximo 8 dígitos)"⟩
  else if repDigit cuerpo then
    ⟨false, some "RUT inválido (números repetidos)"⟩
  else if dvIngresado ≠ [dvFromSum (sumaPonderada cuerpo)] then
    ⟨false, some "Dígito verificador incorrecto"⟩
  else ⟨true, none⟩

/-- `validarRut` (lines 28-84) after its inline clean, which is literally
the same code as `limpiarRut`: below 2 characters return silently,
otherwise split `cuerpo = slice(0, -1)` and `dvIngresado = slice(-1)`. -/
def validarRutL (valor : List Char) : ValidationResult :=
  if valor.length < 2 then ⟨false, none⟩
  else validarRutCore (valor.take (valor.length - 1)) (valor.drop (valor.length - 1))

/-- `validarRut` from contacto.js (lines 28-84). -/
def validarRut (rut : String) : ValidationResult :=
  validarRutL (limpiarL rut.data)

/-- JS `String.prototype.trim` on character lists: whitespace removed from
both ends (`Char.isWhitespace` covers the ASCII whitespace of the inputs
at hand: space, tab, CR, LF). -/
def trimL (l : List Char) : List Char :=
  ((l.dropWhile Char.isWhitespace).reverse.dropWhile Char.isWhitespace).reverse

/-- String-level wrapper for JS `trim()`. -/
def trimJs (s : String) : String :=
  ⟨trimL s.data⟩

/-- Full-match test for the email regex `[^\s@]+@[^\s@]+\.[^\s@]+` anchored
on both sides: the string splits at a unique `@` into a nonempty local
part and a domain, neither containing whitespace (an `@` in either part is
impossible after the split), and the domain contains a dot that is neither
its first nor its last character, so that both `[^\s@]+` groups around the
`\.` can be nonempty. -/
def emailRegexTest (l : List Char) : Bool :=
  match l.splitOn '@' with
  | [a, d] =>
      !a.isEmpty && a.all (fun c => !c.isWhitespace)
        && d.all (fun c => !c.isWhitespace)
        && (d.drop 1).dropLast.contains '.'
  | _ => false

/-- `validarEmail` from contacto.js (lines 102-124).  The JS guard
`!email || email.trim() === ''` is equivalent to the trimmed value being
empty.  `includes` is list membership. -/
def validarEmail (email : String) : ValidationResult :=
  if (trimL email.data).isEmpty then ⟨false, none⟩
  else if !emailRegexTest (trimL email.data) then
    if !(trimL email.data).contains '@' then ⟨false, some "Falta el símbolo @"⟩
    else if !(trimL email.data).contains '.' then
      ⟨false, some "Falta el dominio (ej: .com, .cl)"⟩
    else ⟨false, some "Formato de email inválido"⟩
  else ⟨true, none⟩

/-- `formatearTelefono` (lines 133-136): keep the digits, at most 9. -/
def formatearTelefono (telefono : String) : String :=
  ⟨(telefono.data.filter Char.isDigit).take 9⟩

/-- `validarTelefono` from contacto.js (lines 143-159).
`replace(/\D/g, '')` keeps exactly the decimal digits; the JS `const`
binding `soloDigitos` for that digit list is inlined. -/
def validarTelefono (telefono : String) : ValidationResult :=
  if (telefono.data.filter Char.isDigit).length = 0 then ⟨false, none⟩
  else if (telefono.data.filter Char.isDigit).length < 9 then
    ⟨false, some ("Faltan " ++
      toString (9 - (telefono.data.filter Char.isDigit).length) ++ " dígitos")⟩
  else if (telefono.data.filter Char.isDigit).length = 9 then ⟨true, none⟩
  else ⟨false, some "Máximo 9 dígitos"⟩

/-- The processed address object `window.direccionContactoProcesada`. -/
structure Direccion where
  street : String
  number : String
  comuna : String
  region : String
  postal : String
  formatted : String
  deriving DecidableEq, Repr

/-- The form fields read by `crearContacto` (lines 443-454): the raw input
values, the selected business-unit id (empty string when unselected, as
for an unselected `<select>`), and the optional processed address. -/
structure ContactoForm where
  rutValue : String
  unidadId : String
  unidadNombre : String
  emailValue : String
  telefonoValue : String
  complemento : String
  direccionProcesada : Option Direccion
  deriving DecidableEq, Repr

/-- The `dataToSend` object of lines 522-537.  JS sends
`parseInt(unidadId)`; the raw id string is kept here since no claim
depends on the numeric parse. -/
structure DatosContacto where
  rut : String
  unidadNegocioId : String
  unidadNegocioNombre : String
  email : String
  telefono : String
  direccion : Direccion
  street2 : String
  deriving DecidableEq, Repr

/-- `crearContacto` (lines 436-553) up to the network call.
`Except.error msg` models the early returns of lines 456-518 that write an
inline warning (`msg warning`) into the message box and return before the
`fetch`, leaving the form fields untouched; `Except.ok` models reaching
the POST with `dataToSend`.  The JS `const` bindings (`rut`, `email`,
`telefono`, `rutValidacion`, ...) are inlined, which is equivalent since
all involved functions are pure.  When JS interpolates a null error
message it renders the text "null". -/
def crearContacto (f : ContactoForm) : Except String DatosContacto :=
  if !(validarRut (limpiarRut f.rutValue)).valid then
    .error ((validarRut (limpiarRut f.rutValue)).error.getD "Ingresa un RUT válido")
  else if f.unidadId = "" then .error "Selecciona una unidad de negocio"
  else if trimJs f.emailValue = "" then .error "Ingresa un email"
  else if !(validarEmail (trimJs f.emailValue)).valid then
    .error ((validarEmail (trimJs f.emailValue)).error.getD "null")
  else if trimJs f.telefonoValue = "" then .error "Ingresa un número de teléfono"
  else if !(validarTelefono (trimJs f.telefonoValue)).valid then
    .error "El teléfono debe tener 9 dígitos"
  else
    match f.direccionProcesada with
    | none => .error "Selecciona una dirección del autocompletado"
    | some d =>
      if d.street = "" || d.comuna = "" || d.region = "" then
        .error "La dirección seleccionada no tiene información completa. Intenta con otra dirección."
      else
        .ok { rut := formatearRut (limpiarRut f.rutValue), unidadNegocioId := f.unidadId,
              unidadNegocioNombre := f.unidadNombre, email := trimJs f.emailValue,
              telefono := trimJs f.telefonoValue, direccion := d,
              street2 := trimJs f.complemento }

/-! ## Specification-side definitions

These follow the words of the specification, independently of the code
above, and are compared with the code-side definitions in the theorems. -/

/-- Spec side: the cyclic weight 2,3,4,5,6,7 of the digit at position `j`
counted from the right, in closed form. -/
def sumaSpecAux : List Char → Nat → Nat
  | [], _ => 0
  | c :: rest, j => (c.toNat - '0'.toNat) * (2 + j % 6) + sumaSpecAux rest (j + 1)

/-- Spec side: weighted sum of the body digits right to left with cyclic
weights 2..7. -/
def sumaSpec (cuerpo : List Char) : Nat :=
  sumaSpecAux cuerpo.reverse 0

/-- Spec side: the check character derived from `11 - (sum mod 11)`,
mapping 11 to '0', 10 to 'K', and any other value to its decimal digit. -/
def dvEsperadoSpec (cuerpo : List Char) : Char :=
  let n := 11 - sumaSpec cuerpo % 11
  if n = 11 then '0' else if n = 10 then 'K' else Nat.digitChar n

/-- Spec side for the clean operation: every character that is not a digit
or k/K is removed, and k/K is kept as the uppercase 'K'. -/
def limpiezaSpec : List Char → List Char
  | [] => []
  | c :: rest =>
      if c.isDigit then c :: limpiezaSpec rest
      else if c = 'k' ∨ c = 'K' then 'K' :: limpiezaSpec rest
      else limpiezaSpec rest

/-! ## Basic lemmas about the clean operation -/

theorem limpiarL_cons (c : Char) (l : List Char) :
    limpiarL (c :: l) = if isRutChar c then upK c :: limpiarL l else limpiarL l := by
  simp only [limpiarL, List.filter_cons]
  split <;> simp

theorem limpiarL_append (l₁ l₂ : List Char) :
    limpiarL (l₁ ++ l₂) = limpiarL l₁ ++ limpiarL l₂ := by
  simp [limpiarL]

/-- Characters surviving the clean are digits or the uppercase K. -/
theorem mem_limpiarL {l : List Char} {c : Char} (h : c ∈ limpiarL l) :
    c.isDigit = true ∨ c = 'K' := by
  simp only [limpiarL, List.mem_map, List.mem_filter] at h
  obtain ⟨b, ⟨-, hb⟩, rfl⟩ := h
  by_cases hk : b = 'k'
  · subst hk; right; rfl
  · simp only [isRutChar, Bool.or_eq_true, beq_iff_eq, hk, or_false] at hb
    rcases hb with hb | hb
    · left; simpa [upK, hk] using hb
    · subst hb; right; rfl

/-- A list of digits and uppercase Ks is untouched by the clean. -/
theorem limpiarL_fixed {l : List Char} (h : ∀ c ∈ l, c.isDigit = true ∨ c = 'K') :
    limpiarL l = l := by
  induction l with
  | nil => rfl
  | cons c rest ih =>
    have hc := h c (List.mem_cons_self c rest)
    have hrest := ih fun b hb => h b (List.mem_cons_of_mem c hb)
    have hck : c ≠ 'k' := by
      rcases hc with hc | hc
      · intro he; rw [he] at hc; exact absurd hc (by decide)
      · rw [hc]; decide
    have h1 : isRutChar c = true := by
      rcases hc with hc | hc
      · simp [isRutChar, hc]
      · rw [hc]; decide
    rw [limpiarL_cons, if_pos h1, hrest, upK, if_neg (by simpa using hck)]

theorem limpiarL_idem (l : List Char) : limpiarL (limpiarL l) = limpiarL l :=
  limpiarL_fixed fun _ hc => mem_limpiarL hc

/-- Cleaning the formatted string recovers the cleaned input: the inserted
hyphen is removed again and the remaining characters are clean. -/
theorem limpiarL_formatearRutL (l : List Char) :
    limpiarL (formatearRutL (limpiarL l)) = limpiarL l := by
  by_cases h : (limpiarL l).length < 2
  · rw [formatearRutL, if_pos h, limpiarL_idem]
  · rw [formatearRutL, if_neg h, limpiarL_append, limpiarL_cons]
    have hguion : isRutChar '-' = false := by decide
    rw [hguion]
    have h1 : limpiarL ((limpiarL l).take ((limpiarL l).length - 1)) =
        (limpiarL l).take ((limpiarL l).length - 1) :=
      limpiarL_fixed fun c hc => mem_limpiarL (List.take_subset _ _ hc)
    have h2 : limpiarL ((limpiarL l).drop ((limpiarL l).length - 1)) =
        (limpiarL l).drop ((limpiarL l).length - 1) :=
      limpiarL_fixed fun c hc => mem_limpiarL (List.drop_subset _ _ hc)
    simp only [Bool.false_eq_true, if_false, h1, h2, List.take_append_drop]

/-- C4: formatearRut is idempotent: for every string x,
formatearRut (formatearRut x) = formatearRut x. -/
theorem formatearRut_idempotent (x : String) :
    formatearRut (formatearRut x) = formatearRut x :=
  congrArg String.mk (congrArg formatearRutL (limpiarL_formatearRutL x.data))

/-- C8: validarRut is insensitive to formatting characters: validating any
input gives the same result object as validating its cleaned form. -/
theorem validarRut_eq_on_limpiarRut (x : String) :
    validarRut x = validarRut (limpiarRut x) := by
  show validarRutL (limpiarL x.data) = validarRutL (limpiarL (limpiarL x.data))
  rw [limpiarL_idem]

/-- C5 counterexample: formatearRut applied to the body string "7654321"
splits off its last digit as the check character and yields "765432-1",
not "7654321-6". -/
theorem formatearRut_on_bare_body :
    formatearRut "7654321" = "765432-1" ∧ formatearRut "7654321" ≠ "7654321-6" := by
  constructor <;> decide

/-- C5 amended: formatearRut applied to the full RUT "76543216" (body
7654321 together with its modulo-11 check digit 6) yields "7654321-6". -/
theorem formatearRut_body_7654321 : formatearRut "76543216" = "7654321-6" := by
  decide

/-! ## The weighted sum: stateful multiplier versus closed-form weights -/

/-- The multiplier of the JS loop, started at `2 + j % 6`, agrees with the
closed-form cyclic weight at every later position. -/
theorem sumaAux_eq_spec (l : List Char) : ∀ j : Nat, sumaAux l (2 + j % 6) = sumaSpecAux l j := by
  induction l with
  | nil => intro j; rfl
  | cons c rest ih =>
    intro j
    have hstep : (if 2 + j % 6 = 7 then 2 else 2 + j % 6 + 1) = 2 + (j + 1) % 6 := by
      by_cases h5 : j % 6 = 5
      · have : (j + 1) % 6 = 0 := by omega
        rw [if_pos (by omega), this]
      · have : (j + 1) % 6 = j % 6 + 1 := by omega
        rw [if_neg (by omega), this, Nat.add_assoc]
    show (c.toNat - '0'.toNat) * (2 + j % 6) +
        sumaAux rest (if 2 + j % 6 = 7 then 2 else 2 + j % 6 + 1) = _
    rw [hstep, ih (j + 1)]
    rfl

theorem sumaPonderada_eq_spec (cuerpo : List Char) : sumaPonderada cuerpo = sumaSpec cuerpo :=
  sumaAux_eq_spec cuerpo.reverse 0

/-- The expected check character computed by the code equals the one
derived in the specification's words. -/
theorem dvFromSum_eq_spec (cuerpo : List Char) :
    dvFromSum (sumaPonderada cuerpo) = dvEsperadoSpec cuerpo := by
  rw [dvFromSum, sumaPonderada_eq_spec]
  rfl

/-! ## Evaluating validarRut on a split cleaned value -/

/-- On a cleaned value split as body plus one check character, `validarRut`
reaches `validarRutCore` with exactly that split. -/
theorem validarRutL_append_singleton (cuerpo : List Char) (d : Char) (h : cuerpo ≠ []) :
    validarRutL (cuerpo ++ [d]) = validarRutCore cuerpo [d] := by
  have hlen : (cuerpo ++ [d]).length = cuerpo.length + 1 := by simp
  have hpos : 0 < cuerpo.length := List.length_pos.mpr h
  rw [validarRutL, if_neg (by omega), hlen, Nat.add_sub_cancel]
  congr 1
  · exact List.take_left cuerpo [d]
  · exact List.drop_left cuerpo [d]

/-- A body with two distinct characters never matches the repeated-digit
regex. -/
theorem repDigit_eq_false {cuerpo : List Char}
    (h : ∃ a ∈ cuerpo, ∃ b ∈ cuerpo, a ≠ b) : repDigit cuerpo = false := by
  obtain ⟨a, ha, b, hb, hab⟩ := h
  cases cuerpo with
  | nil => rfl
  | cons c rest =>
    rw [repDigit]
    by_contra hrep
    have htrue : (c.isDigit && !rest.isEmpty && rest.all fun b => b == c) = true := by
      revert hrep; cases (c.isDigit && !rest.isEmpty && rest.all fun b => b == c) <;> simp
    have hall : ∀ x ∈ c :: rest, x = c := by
      intro x hx
      rcases List.mem_cons.mp hx with rfl | hx
      · rfl
      · have := htrue
        simp only [Bool.and_eq_true, List.all_eq_true, beq_iff_eq] at this
        exact this.2 x hx
    exact hab ((hall a ha).trans (hall b hb).symm)

/-- A replicated digit body matches the repeated-digit regex. -/
theorem repDigit_replicate {d : Char} {n : Nat} (hd : d.isDigit = true) (hn : 2 ≤ n) :
    repDigit (List.replicate n d) = true := by
  obtain ⟨m, rfl⟩ : ∃ m, n = m + 2 := ⟨n - 2, by omega⟩
  rw [List.replicate_succ, repDigit]
  simp [hd, List.mem_replicate]

/-- C1: for every input whose cleaned form has a numeric 7-8 digit body
that is not a single repeated digit, validarRut accepts exactly when the
supplied check character is the one derived from the modulo-11 formula
with cyclic weights 2..7 (11 to '0', 10 to 'K', otherwise the digit). -/
theorem validarRut_mod11_iff (s : String) (cuerpo dv : List Char)
    (hsplit : (limpiarRut s).data = cuerpo ++ dv) (hdv : dv.length = 1)
    (hdig : ∀ c ∈ cuerpo, c.isDigit = true)
    (h7 : 7 ≤ cuerpo.length) (h8 : cuerpo.length ≤ 8)
    (hrep : ∃ a ∈ cuerpo, ∃ b ∈ cuerpo, a ≠ b) :
    (validarRut s).valid = true ↔ dv = [dvEsperadoSpec cuerpo] := by
  obtain ⟨d, rfl⟩ := List.length_eq_one.mp hdv
  have hne : cuerpo ≠ [] := by
    intro h; rw [h] at h7; exact absurd h7 (by decide)
  have hv : validarRut s = validarRutCore cuerpo [d] := by
    show validarRutL (limpiarL s.data) = _
    have : limpiarL s.data = cuerpo ++ [d] := hsplit
    rw [this, validarRutL_append_singleton cuerpo d hne]
  rw [hv, validarRutCore]
  rw [if_neg, if_neg (by omega), if_neg (by omega), if_neg (by simp [repDigit_eq_false hrep])]
  · rw [dvFromSum_eq_spec]
    by_cases hd : d = dvEsperadoSpec cuerpo
    · subst hd; simp
    · rw [if_pos (by simpa using hd)]
      simp [hd]
  · have h1 : cuerpo.isEmpty = false := by
      cases cuerpo
      · exact absurd rfl hne
      · rfl
    have h2 : cuerpo.all Char.isDigit = true := List.all_eq_true.mpr hdig
    simp [h1, h2]

/-- C1 witness: the known vector 12345678-5 is accepted, and its check
character '5' is the one derived from the formula. -/
theorem validarRut_mod11_iff_witness :
    (validarRut "12345678-5").valid = true ↔ ("5".data = [dvEsperadoSpec "12345678".data]) :=
  validarRut_mod11_iff "12345678-5" "12345678".data "5".data (by decide) (by decide)
    (by decide) (by decide) (by decide) (by decide)

/-- C2: on a cleaned form of length at least 2 (split as a nonempty body
plus one check character), a body with a non-digit character, or a numeric
body shorter than 7 or longer than 8 digits, makes validarRut return
invalid with a non-null error message. -/
theorem validarRut_rejects_malformed (s : String) (cuerpo dv : List Char)
    (hsplit : (limpiarRut s).data = cuerpo ++ dv) (hdv : dv.length = 1)
    (hne : cuerpo ≠ [])
    (hbad : (∃ c ∈ cuerpo, ¬ c.isDigit = true) ∨
            ((∀ c ∈ cuerpo, c.isDigit = true) ∧ cuerpo.length < 7) ∨
            ((∀ c ∈ cuerpo, c.isDigit = true) ∧ 8 < cuerpo.length)) :
    (validarRut s).valid = false ∧ (validarRut s).error ≠ none := by
  obtain ⟨d, rfl⟩ := List.length_eq_one.mp hdv
  have hv : validarRut s = validarRutCore cuerpo [d] := by
    show validarRutL (limpiarL s.data) = _
    have : limpiarL s.data = cuerpo ++ [d] := hsplit
    rw [this, validarRutL_append_singleton cuerpo d hne]
  have hempty : cuerpo.isEmpty = false := by
    cases cuerpo
    · exact absurd rfl hne
    · rfl
  rw [hv, validarRutCore]
  rcases hbad with ⟨c, hc, hcd⟩ | ⟨hall, hlt⟩ | ⟨hall, hgt⟩
  · have : cuerpo.all Char.isDigit = false := by
      rcases hx : cuerpo.all Char.isDigit with _ | _
      · rfl
      · exact absurd (List.all_eq_true.mp hx c hc) hcd
    rw [if_pos (by simp [this])]
    exact ⟨rfl, by simp⟩
  · rw [if_neg (by simp [hempty, List.all_eq_true.mpr hall]), if_pos hlt]
    exact ⟨rfl, by simp⟩
  · rw [if_neg (by simp [hempty, List.all_eq_true.mpr hall]), if_neg (by omega), if_pos hgt]
    exact ⟨rfl, by simp⟩

/-- C2 witness: "123456-0" has a numeric 6-digit body, is rejected, and
carries an error message. -/
theorem validarRut_rejects_malformed_witness :
    (validarRut "123456-0").valid = false ∧ (validarRut "123456-0").error ≠ none :=
  validarRut_rejects_malformed "123456-0" "123456".data "0".data (by decide) (by decide)
    (by decide) (Or.inr (Or.inl ⟨by decide, by decide⟩))

/-- C3: a cleaned form whose numeric 7-8 digit body is a single repeated
digit is rejected by validarRut. -/
theorem validarRut_rejects_repeated (s : String) (cuerpo dv : List Char) (d0 : Char)
    (hsplit : (limpiarRut s).data = cuerpo ++ dv) (hdv : dv.length = 1)
    (hrep : cuerpo = List.replicate cuerpo.length d0)
    (hdig : ∀ c ∈ cuerpo, c.isDigit = true)
    (h7 : 7 ≤ cuerpo.length) (h8 : cuerpo.length ≤ 8) :
    (validarRut s).valid = false := by
  obtain ⟨d, rfl⟩ := List.length_eq_one.mp hdv
  have hne : cuerpo ≠ [] := by
    intro h; rw [h] at h7; exact absurd h7 (by decide)
  have hv : validarRut s = validarRutCore cuerpo [d] := by
    show validarRutL (limpiarL s.data) = _
    have : limpiarL s.data = cuerpo ++ [d] := hsplit
    rw [this, validarRutL_append_singleton cuerpo d hne]
  have hempty : cuerpo.isEmpty = false := by
    cases cuerpo
    · exact absurd rfl hne
    · rfl
  have hd0 : d0.isDigit = true := by
    apply hdig
    rw [hrep]
    exact List.mem_replicate.mpr ⟨by omega, rfl⟩
  have hrepTrue : repDigit cuerpo = true := by
    conv_lhs => rw [hrep]
    exact repDigit_replicate hd0 (by omega)
  rw [hv, validarRutCore,
    if_neg (by simp [hempty, List.all_eq_true.mpr hdig]),
    if_neg (by omega), if_neg (by omega), if_pos hrepTrue]

/-- C3 witness: "11111111-1" is rejected even though '1' is the modulo-11
check character of the body 11111111. -/
theorem validarRut_rejects_repeated_witness :
    (validarRut "11111111-1").valid = false ∧
      "1".data = [dvEsperadoSpec "11111111".data] :=
  ⟨validarRut_rejects_repeated "11111111-1" "11111111".data "1".data '1' (by decide)
      (by decide) (by decide) (by decide) (by decide) (by decide),
    by decide⟩

/-- The cleaning of the code agrees with the specification's description:
non-digit, non-k/K characters are removed and k is uppercased. -/
theorem limpiarL_eq_limpiezaSpec (l : List Char) : limpiarL l = limpiezaSpec l := by
  induction l with
  | nil => rfl
  | cons c rest ih =>
    rw [limpiarL_cons, limpiezaSpec]
    by_cases hd : c.isDigit = true
    · have hk : ¬ c = 'k' := fun h => by rw [h] at hd; exact absurd hd (by decide)
      rw [if_pos (by simp [isRutChar, hd]), if_pos hd, ih, upK, if_neg (by simpa using hk)]
    · by_cases hkK : c = 'k' ∨ c = 'K'
      · have h1 : isRutChar c = true := by rcases hkK with rfl | rfl <;> decide
        have h2 : upK c = 'K' := by rcases hkK with rfl | rfl <;> decide
        rw [if_pos h1, if_neg hd, if_pos hkK, h2, ih]
      · push_neg at hkK
        have hd' : c.isDigit = false := Bool.eq_false_iff.mpr hd
        have h1 : isRutChar c = false := by
          simp [isRutChar, hd', hkK.1, hkK.2]
        rw [if_neg (by simp [h1]), if_neg hd, if_neg (not_or.mpr hkK), ih]

/-- C6: limpiarRut agrees with the spec-side clean (keep digits, uppercase
k/K, drop the rest), its output holds only digits and uppercase K, and on
an already-cleaned string of length at least 2, formatearRut returns the
body, a hyphen, and the final check character, in that order. -/
theorem limpiarRut_formatearRut_shape :
    (∀ s : String, (limpiarRut s).data = limpiezaSpec s.data) ∧
    (∀ s : String, ∀ c ∈ (limpiarRut s).data, c.isDigit = true ∨ c = 'K') ∧
    (∀ s : String, (∀ c ∈ s.data, c.isDigit = true ∨ c = 'K') → 2 ≤ s.data.length →
      (formatearRut s).data =
        s.data.take (s.data.length - 1) ++ '-' :: s.data.drop (s.data.length - 1)) := by
  refine ⟨fun s => limpiarL_eq_limpiezaSpec s.data, fun s c hc => mem_limpiarL hc, ?_⟩
  intro s h h2
  show formatearRutL (limpiarL s.data) = _
  rw [limpiarL_fixed h, formatearRutL, if_neg (by omega)]

/-- C6 witness: cleaning keeps the characters of "a1-2k." as "12K", and
formatting the cleaned "12K" gives body "12", hyphen, check 'K'. -/
theorem limpiarRut_formatearRut_shape_witness :
    (limpiarRut "a1-2k.").data = limpiezaSpec ("a1-2k." : String).data ∧
      (∀ c ∈ ("12K" : String).data, c.isDigit = true ∨ c = 'K') ∧
      2 ≤ ("12K" : String).data.length ∧
      (formatearRut "12K").data =
        ("12K" : String).data.take (("12K" : String).data.length - 1) ++
          '-' :: ("12K" : String).data.drop (("12K" : String).data.length - 1) :=
  ⟨limpiarRut_formatearRut_shape.1 "a1-2k.", by decide, by decide,
    limpiarRut_formatearRut_shape.2.2 "12K" (by decide) (by decide)⟩

/-- C9: none of the three validators ever pairs valid:true with an error
message: a valid result always carries error = null. -/
theorem valid_implies_error_none :
    (∀ s : String, (validarRut s).valid = true → (validarRut s).error = none) ∧
    (∀ s : String, (validarEmail s).valid = true → (validarEmail s).error = none) ∧
    (∀ s : String, (validarTelefono s).valid = true → (validarTelefono s).error = none) := by
  refine ⟨fun s => ?_, fun s => ?_, fun s => ?_⟩
  · rw [validarRut, validarRutL]
    split
    · simp
    · rw [validarRutCore]
      repeat' split
      all_goals simp
  · rw [validarEmail]
    repeat' split
    all_goals simp
  · rw [validarTelefono]
    repeat' split
    all_goals simp

/-- C9 witness: a valid RUT, email and phone each come with error = null. -/
theorem valid_implies_error_none_witness :
    ((validarRut "12345678-5").valid = true ∧ (validarRut "12345678-5").error = none) ∧
      ((validarEmail "a@b.c").valid = true ∧ (validarEmail "a@b.c").error = none) ∧
      ((validarTelefono "912345678").valid = true ∧
        (validarTelefono "912345678").error = none) :=
  ⟨⟨by decide, valid_implies_error_none.1 "12345678-5" (by decide)⟩,
    ⟨by decide, valid_implies_error_none.2.1 "a@b.c" (by decide)⟩,
    ⟨by decide, valid_implies_error_none.2.2 "912345678" (by decide)⟩⟩

/-- C10: empty or just-started input is rejected silently: a cleaned RUT
shorter than 2 characters, a whitespace-only (possibly empty) email, and a
phone with no digit at all each give valid:false with error = null. -/
theorem silent_on_incomplete_input :
    (∀ s : String, (limpiarRut s).data.length < 2 → validarRut s = ⟨false, none⟩) ∧
    (∀ s : String, (∀ c ∈ s.data, c.isWhitespace = true) → validarEmail s = ⟨false, none⟩) ∧
    (∀ s : String, (∀ c ∈ s.data, c.isDigit = false) → validarTelefono s = ⟨false, none⟩) := by
  refine ⟨fun s h => ?_, fun s h => ?_, fun s h => ?_⟩
  · rw [validarRut, validarRutL, if_pos (show (limpiarL s.data).length < 2 from h)]
  · have h1 : s.data.dropWhile Char.isWhitespace = [] := by
      rw [List.dropWhile_eq_nil_iff]
      intro x hx
      exact h x hx
    have ht : trimL s.data = [] := by rw [trimL, h1]; rfl
    rw [validarEmail, if_pos (by simp [ht])]
  · have hf : s.data.filter Char.isDigit = [] := by
      rw [List.filter_eq_nil_iff]
      intro a ha
      simp [h a ha]
    rw [validarTelefono, if_pos (by simp [hf])]

/-- C10 witness: the one-character RUT "5", the whitespace email " ", and
the digitless phone "abc" are each rejected with error = null. -/
theorem silent_on_incomplete_input_witness :
    ((limpiarRut "5").data.length < 2 ∧ validarRut "5" = ⟨false, none⟩) ∧
      validarEmail " " = ⟨false, none⟩ ∧ validarTelefono "abc" = ⟨false, none⟩ :=
  ⟨⟨by decide, silent_on_incomplete_input.1 "5" (by decide)⟩,
    silent_on_incomplete_input.2.1 " " (by decide),
    silent_on_incomplete_input.2.2 "abc" (by decide)⟩

/-- validarTelefono accepts exactly the inputs with 9 digits. -/
theorem validarTelefono_valid_iff (t : String) :
    (validarTelefono t).valid = true ↔ (t.data.filter Char.isDigit).length = 9 := by
  rw [validarTelefono]
  split
  next h0 => simp [h0]
  next h0 =>
  split
  next h1 => simp; omega
  next h1 =>
  split
  next h2 => simp [h2]
  next h2 => simp; omega

/-- C7: whenever any field fails validation (invalid RUT, unselected
business unit, empty or invalid email, empty phone or one whose digit
count is not exactly 9, missing or incomplete selected address),
crearContacto surfaces an inline warning and returns before issuing the
HTTP POST, so the form state is left unchanged. -/
theorem crearContacto_blocks_on_invalid (f : ContactoForm)
    (h : (validarRut (limpiarRut f.rutValue)).valid = false ∨
         f.unidadId = "" ∨
         trimJs f.emailValue = "" ∨
         (validarEmail (trimJs f.emailValue)).valid = false ∨
         trimJs f.telefonoValue = "" ∨
         ((trimJs f.telefonoValue).data.filter Char.isDigit).length ≠ 9 ∨
         f.direccionProcesada = none ∨
         (∃ d, f.direccionProcesada = some d ∧
           (d.street = "" ∨ d.comuna = "" ∨ d.region = ""))) :
    ∃ msg, crearContacto f = Except.error msg := by
  rw [crearContacto]
  split
  · exact ⟨_, rfl⟩
  next hrut =>
  split
  · exact ⟨_, rfl⟩
  next hu =>
  split
  · exact ⟨_, rfl⟩
  next hem =>
  split
  · exact ⟨_, rfl⟩
  next hev =>
  split
  · exact ⟨_, rfl⟩
  next hte =>
  split
  · exact ⟨_, rfl⟩
  next htv =>
  split
  next hdir => exact ⟨_, rfl⟩
  next d hdir =>
  split
  · exact ⟨_, rfl⟩
  next hcompleta =>
  exfalso
  simp only [Bool.not_eq_true, Bool.not_eq_false] at hrut hev htv
  rcases h with h | h | h | h | h | h | h | ⟨d', hd', hbad⟩
  · rw [h] at hrut; exact absurd hrut (by decide)
  · exact hu h
  · exact hem h
  · rw [h] at hev; exact absurd hev (by decide)
  · exact hte h
  · exact h ((validarTelefono_valid_iff _).mp (by
      rcases hx : (validarTelefono (trimJs f.telefonoValue)).valid with _ | _
      · rw [hx] at htv; exact absurd htv (by decide)
      · rfl))
  · rw [hdir] at h; exact Option.some_ne_none d h
  · rw [hdir] at hd'
    obtain rfl : d' = d := (Option.some_inj.mp hd'.symm)
    rcases hbad with hb | hb | hb <;> simp [hb] at hcompleta

/-- C7 witness: on a fully empty form the RUT validation fails, and
crearContacto stops with a warning instead of building a request. -/
theorem crearContacto_blocks_on_invalid_witness :
    (validarRut (limpiarRut "")).valid = false ∧
      ∃ msg, crearContacto ⟨"", "", "", "", "", "", none⟩ = Except.error msg :=
  ⟨by decide,
    crearContacto_blocks_on_invalid ⟨"", "", "", "", "", "", none⟩ (Or.inl (by decide))⟩
